import Mathlib

/-!
Shallow embedding of the blockchain-transaction core of the
`book_marketplace` backend:

* `src/backend/utils/eth.py` — `EthereumHandler`: connection verification,
  gas-price caching, the three state-changing submitters (`list_book`,
  `purchase_book`, `withdraw_royalties`), signature verification and the
  read-only balance/royalty queries;
* `src/backend/models/transaction.py` — the persisted `Transaction` record
  and its `complete` / `fail` transitions;
* `src/backend/routes/payment_routes.py` — the purchase and
  royalty-withdrawal route handlers;
* `src/backend/config.py` — the startup network check in `Config.init_app`.

Python runtime effects are made explicit: each RPC / chain interaction an
execution observes is a parameter (an oracle value), and `try/except` blocks
become a `Res` result type (`.err` = the wrapped code raised, carrying the
exception message).  Mutable state (the gas-price cache, the record) is
threaded explicitly: a method that mutates returns the updated value.
-/

set_option linter.unusedVariables false

namespace BookMarket

/-- Outcome of a fallible Python expression: `.ok` is a normal return,
`.err msg` models a raised exception with message `msg`. -/
inductive Res (α : Type) where
  | ok (a : α)
  | err (msg : String)
deriving Repr, DecidableEq

def Res.isOk {α : Type} : Res α → Bool
  | .ok _ => true
  | .err _ => false

/-! ### Constants of `EthereumHandler.GANACHE_CONFIG` (eth.py lines 12-18) -/

def GANACHE_NETWORK_ID : String := "5777"

def GANACHE_CHAIN_ID : Nat := 1337

def GANACHE_GAS_LIMIT : Nat := 6721975

/-- Embeds `GANACHE_CONFIG[DEFAULT_GAS_PRICE]` = 20 gwei. -/
def DEFAULT_GAS_PRICE : Nat := 20000000000

/-! ### Gas-price cache (eth.py lines 29, 88-104) -/

/-- Model of `self.gas_price_cache`: a timestamp (seconds) and a price in wei. -/
structure GasPriceCache where
  timestamp : Int
  price : Nat
deriving Repr, DecidableEq

/-- What one call of `get_gas_price` produces: the returned price, the cache
it leaves behind, and whether `w3.eth.gas_price` was queried. -/
structure GasPriceResult where
  price : Nat
  cache : GasPriceCache
  queried : Bool
deriving Repr, DecidableEq

/-- Embeds `EthereumHandler.get_gas_price` (eth.py lines 88-104).  `current_time` is
`datetime.now().timestamp()`; `chain_gas_price` is the outcome of the
`w3.eth.gas_price` query (`none` = the query raised, handled by the
`except` branch which substitutes the configured default). -/
def get_gas_price (cache : GasPriceCache) (current_time : Int)
    (chain_gas_price : Option Nat) : GasPriceResult :=
  if current_time - cache.timestamp > 60 then
    match chain_gas_price with
    | some gas_price =>
        { price := gas_price,
          cache := { timestamp := current_time, price := gas_price },
          queried := true }
    | none =>
        { price := DEFAULT_GAS_PRICE,
          cache := { timestamp := current_time, price := DEFAULT_GAS_PRICE },
          queried := true }
  else
    { price := cache.price, cache := cache, queried := false }

/-! ### Connection verification (eth.py lines 40-60, config.py lines 73-87) -/

/-- What the connected client reports during startup verification.
`chain_id` is the chain id the client would report; it is a field of the
probe so that theorems can state whether the verification reads it. -/
structure GanacheProbe where
  is_connected : Bool
  net_version : Res String
  chain_id : Nat
  accounts : Res (List String)
deriving Repr, DecidableEq

/-- Embeds `EthereumHandler.verify_ganache_connection` (eth.py lines 40-60).
Raises (re-raised by its `except` clause) on: not connected, reported
network id different from `GANACHE_CONFIG[NETWORK_ID]`, or no accounts;
otherwise returns `True`. -/
def verify_ganache_connection (p : GanacheProbe) : Res Bool :=
  if p.is_connected = false then
    .err "Not connected to Ganache network"
  else
    match p.net_version with
    | .err e => .err e
    | .ok network_id =>
      if network_id ≠ GANACHE_NETWORK_ID then
        .err ("Connected to network " ++ network_id ++
              ", expected Ganache network " ++ GANACHE_NETWORK_ID)
      else
        match p.accounts with
        | .err e => .err e
        | .ok accounts =>
          if accounts.isEmpty then .err "No accounts available on Ganache"
          else .ok true

/-- Embeds the network verification of `Config.init_app` (config.py lines 73-87):
raises if not connected or if the reported network id differs from
`GANACHE_CONFIG[NETWORK_ID]`. -/
def config_init_app (p : GanacheProbe) : Res Unit :=
  if p.is_connected = false then
    .err "Unable to connect to Ethereum network"
  else
    match p.net_version with
    | .err e => .err e
    | .ok network_id =>
      if network_id ≠ GANACHE_NETWORK_ID then
        .err ("Connected to wrong network. Expected Ganache (ID: " ++
              GANACHE_NETWORK_ID ++ "), got " ++ network_id)
      else .ok ()

/-! ### State-changing submitters (eth.py lines 106-152, 154-194, 244-280) -/

/-- A transaction receipt as returned by
`w3.eth.wait_for_transaction_receipt`: its success flag (`receipt[status]`),
block number and gas used. -/
structure Receipt where
  status : Bool
  blockNumber : Nat
  gasUsed : Nat
deriving Repr, DecidableEq

/-- The chain interactions one submitter execution observes, in the order the
source performs them: the nonce fetch (`w3.eth.get_transaction_count`), the
`w3.eth.gas_price` query made inside `get_gas_price`, the
build-and-sign step (`build_transaction` + `sign_transaction`), the raw
submission (`send_raw_transaction`, yielding the transaction hash) and the
receipt wait (`wait_for_transaction_receipt`; `.err` includes the timeout
exception raised after 120 s without a receipt). -/
structure TxChainOracle where
  transaction_count : Res Nat
  chain_gas_price : Option Nat
  sign : Res Unit
  send_raw_transaction : Res String
  wait_for_receipt : Res Receipt
deriving Repr, DecidableEq

/-- The dict each submitter returns: a success dict carrying the keys
status, transaction_hash, block_number and gas_used, or an error dict
carrying status and message. -/
inductive TxResult where
  | success (transaction_hash : String) (block_number : Nat) (gas_used : Nat)
  | error (message : String)
deriving Repr, DecidableEq

def TxResult.isSuccess : TxResult → Bool
  | .success _ _ _ => true
  | .error _ => false

/-- All five chain steps of a submitter returned normally.  (The `status`
flag of the receipt is deliberately NOT part of this predicate: the source never
reads it.) -/
def TxChainOracle.allOk (o : TxChainOracle) : Prop :=
  o.transaction_count.isOk = true ∧ o.sign.isOk = true ∧
  o.send_raw_transaction.isOk = true ∧ o.wait_for_receipt.isOk = true

instance : DecidablePred TxChainOracle.allOk := fun o => by
  unfold TxChainOracle.allOk; infer_instance

/-- Embeds `EthereumHandler.list_book` (eth.py lines 106-152).  The whole body is one
`try`: any raising step lands in the `except` branch, which returns the
error dict; a received receipt yields the success dict built from the hash
and the `blockNumber`/`gasUsed` fields of the receipt (its success flag
is never consulted).  Returns the result dict and the gas-price cache the
call leaves behind. -/
def list_book (sender_address : String) (ipfs_hash : String) (price : Nat)
    (royalty : Nat) (private_key : Option String) (cache : GasPriceCache)
    (now : Int) (o : TxChainOracle) : TxResult × GasPriceCache :=
  match o.transaction_count with
  | .err e => (.error e, cache)
  | .ok _nonce =>
    let g := get_gas_price cache now o.chain_gas_price
    match o.sign with
    | .err e => (.error e, g.cache)
    | .ok _ =>
      match o.send_raw_transaction with
      | .err e => (.error e, g.cache)
      | .ok tx_hash =>
        match o.wait_for_receipt with
        | .err e => (.error e, g.cache)
        | .ok receipt => (.success tx_hash receipt.blockNumber receipt.gasUsed, g.cache)

/-- Embeds `EthereumHandler.purchase_book` (eth.py lines 154-194); same shape
as `list_book` with the arguments of the purchase call. -/
def purchase_book (buyer_address : String) (book_id : Nat) (value : Nat)
    (private_key : Option String) (cache : GasPriceCache) (now : Int)
    (o : TxChainOracle) : TxResult × GasPriceCache :=
  match o.transaction_count with
  | .err e => (.error e, cache)
  | .ok _nonce =>
    let g := get_gas_price cache now o.chain_gas_price
    match o.sign with
    | .err e => (.error e, g.cache)
    | .ok _ =>
      match o.send_raw_transaction with
      | .err e => (.error e, g.cache)
      | .ok tx_hash =>
        match o.wait_for_receipt with
        | .err e => (.error e, g.cache)
        | .ok receipt => (.success tx_hash receipt.blockNumber receipt.gasUsed, g.cache)

/-- Embeds `EthereumHandler.withdraw_royalties` (eth.py lines 244-280); same shape. -/
def withdraw_royalties (author_address : String) (private_key : Option String)
    (cache : GasPriceCache) (now : Int) (o : TxChainOracle) :
    TxResult × GasPriceCache :=
  match o.transaction_count with
  | .err e => (.error e, cache)
  | .ok _nonce =>
    let g := get_gas_price cache now o.chain_gas_price
    match o.sign with
    | .err e => (.error e, g.cache)
    | .ok _ =>
      match o.send_raw_transaction with
      | .err e => (.error e, g.cache)
      | .ok tx_hash =>
        match o.wait_for_receipt with
        | .err e => (.error e, g.cache)
        | .ok receipt => (.success tx_hash receipt.blockNumber receipt.gasUsed, g.cache)

/-! ### Signature verification and read-only queries (eth.py 234-242, 282-314) -/

/-- Embeds the Python method `str.lower` (ASCII suffices for hex
addresses): lower-cases every character of the string. -/
def pyLower (s : String) : String := ⟨s.data.map Char.toLower⟩

/-- Embeds `EthereumHandler.verify_signature` (eth.py lines 282-298).
`recover_message` is the behaviour of
`w3.eth.account.recover_message(encode_defunct(text=message), signature=...)`:
`some addr` when recovery succeeds, `none` when it raises (malformed
signature).  On success the recovered address is compared case-insensitively
to the claimed one; a raise is caught and yields `false`. -/
def verify_signature (recover_message : String → String → Option String)
    (message : String) (signature : String) (address : String) : Bool :=
  match recover_message message signature with
  | some recovered_address => pyLower recovered_address == pyLower address
  | none => false

/-- Embeds `EthereumHandler.get_royalties` (eth.py lines 234-242): the
outcome of the contract call, with a raise caught and turned into `0`. -/
def get_royalties (author_address : String) (contract_call : Res Nat) : Nat :=
  match contract_call with
  | .ok royalties => royalties
  | .err _ => 0

/-- Embeds `EthereumHandler.get_account_balance` (eth.py lines 308-314): the
`w3.eth.get_balance` outcome, with a raise caught and turned into `0`. -/
def get_account_balance (address : String) (chain_balance : Res Nat) : Nat :=
  match chain_balance with
  | .ok balance => balance
  | .err _ => 0

/-! ### Persisted `Transaction` record (models/transaction.py) -/

inductive TransactionType where
  | purchase
  | royalty
  | withdrawal
deriving Repr, DecidableEq

inductive TransactionStatus where
  | pending
  | completed
  | failed
deriving Repr, DecidableEq

/-- The `transactions` row (models/transaction.py lines 15-48).
`transaction_hash` is `nullable=False`, hence a plain `String`; `gas_used`,
`block_number` and `completed_at` are nullable columns whose default is
null.  Timestamps are abstracted to `Nat` instants. -/
structure Transaction where
  transaction_hash : String
  seller_id : Nat
  amount : Nat
  buyer_id : Option Nat
  book_id : Option Nat
  type : TransactionType
  status : TransactionStatus
  gas_used : Option Nat
  block_number : Option Nat
  completed_at : Option Nat
deriving Repr, DecidableEq

/-- Embeds `Transaction.__init__` (models/transaction.py lines 35-48): sets the
listed fields; `completed_at` is not touched, so it keeps its null column
default. -/
def Transaction.init (transaction_hash : String) (seller_id : Nat)
    (amount : Nat) (buyer_id : Option Nat) (book_id : Option Nat)
    (type : TransactionType) (status : TransactionStatus)
    (gas_used : Option Nat) (block_number : Option Nat) : Transaction :=
  { transaction_hash := transaction_hash, seller_id := seller_id,
    amount := amount, buyer_id := buyer_id, book_id := book_id,
    type := type, status := status, gas_used := gas_used,
    block_number := block_number, completed_at := none }

/-- Embeds `Transaction.complete` (models/transaction.py lines 50-55): mutates the
record in place; `now` is `datetime.utcnow()`.  There is no guard on the
current status and no return value. -/
def Transaction.complete (t : Transaction) (gas_used : Nat)
    (block_number : Nat) (now : Nat) : Transaction :=
  { t with status := .completed, gas_used := some gas_used,
           block_number := some block_number, completed_at := some now }

/-- Embeds `Transaction.fail` (models/transaction.py lines 57-60): likewise
unguarded. -/
def Transaction.fail (t : Transaction) (now : Nat) : Transaction :=
  { t with status := .failed, completed_at := some now }

/-! ### Route handlers (routes/payment_routes.py) -/

/-- The fields of a `Book` row the purchase handler reads. -/
structure BookRec where
  price : Nat
  blockchain_id : Nat
  author_id : Nat
  is_available : Bool
deriving Repr, DecidableEq

/-- The fields of the authenticated `request.user` the handlers read. -/
structure UserRec where
  id : Nat
  is_author : Bool
  ethereum_address : String
deriving Repr, DecidableEq

/-- The JSON body of a purchase request; each field is present or absent. -/
structure PurchaseRequest where
  buyer_address : Option String
  signature : Option String
  private_key : Option String
deriving Repr, DecidableEq

/-- The JSON body of a withdrawal request. -/
structure WithdrawRequest where
  signature : Option String
  private_key : Option String
deriving Repr, DecidableEq

/-- The HTTP response of a handler: `.err code message` for the error JSONs
(400/401/403/404/500) or `.ok` with the success payload. -/
inductive RouteResponse where
  | err (code : Nat) (message : String)
  | ok (transaction_hash : String) (block_number : Nat) (gas_used : Nat)
deriving Repr, DecidableEq

/-- Everything one handler execution produces: the HTTP response, whether an
on-chain submitter (`purchase_book` / `withdraw_royalties`) was invoked, the
`Transaction` record committed to the database (if any), and the gas-price
cache left behind. -/
structure RouteOutcome where
  response : RouteResponse
  chain_called : Bool
  record : Option Transaction
  cache : GasPriceCache
deriving Repr, DecidableEq

/-- The message the purchase handler signs over
(payment_routes.py line 48): `f"Purchase book {book_id} for {book.price} wei"`. -/
def purchase_message (book_id : Nat) (price : Nat) : String :=
  "Purchase book " ++ toString book_id ++ " for " ++ toString price ++ " wei"

/-- The message the withdrawal handler signs over
(payment_routes.py line 153): `f"Withdraw royalties for {user.ethereum_address}"`. -/
def withdraw_message (ethereum_address : String) : String :=
  "Withdraw royalties for " ++ ethereum_address

/-- Embeds the `purchase_book` route handler (payment_routes.py lines 17-97).
`book` is the `Book.query.get_or_404` result (`none` aborts with 404);
`data` is `request.get_json()`.  After a successful submission the source
constructs `Transaction(book_id=..., buyer_id=..., seller_id=..., amount=...,
transaction_hash=..., status=..., timestamp=datetime.utcnow())`, but
`Transaction.__init__` (models/transaction.py lines 35-39) accepts no
`timestamp` keyword: the construction raises TypeError before the commit
line can run, the outer `except` rolls back, and the handler answers 500 —
so no record is ever persisted and the commit is unreachable. -/
def purchase_route (recover_message : String → String → Option String)
    (book_id : Nat) (book : Option BookRec) (user : UserRec)
    (data : Option PurchaseRequest) (cache : GasPriceCache) (now : Int)
    (o : TxChainOracle) : RouteOutcome :=
  match book with
  | none =>
    { response := .err 404 "Not Found", chain_called := false,
      record := none, cache := cache }
  | some book =>
    if book.is_available = false then
      { response := .err 400 "Book is not available for purchase",
        chain_called := false, record := none, cache := cache }
    else
      match data with
      | none =>
        { response := .err 400 "Missing payment information",
          chain_called := false, record := none, cache := cache }
      | some data =>
        match data.buyer_address, data.signature with
        | some buyer_address, some signature =>
          if verify_signature recover_message
              (purchase_message book_id book.price) signature buyer_address
              = false then
            { response := .err 401 "Invalid signature", chain_called := false,
              record := none, cache := cache }
          else
            let pr := purchase_book buyer_address book.blockchain_id
              book.price data.private_key cache now o
            match pr.1 with
            | .error _ =>
              { response := .err 400 "Blockchain transaction failed",
                chain_called := true, record := none, cache := pr.2 }
            | .success tx_hash block_number gas_used =>
              -- Transaction(...) raises TypeError on the unexpected
              -- timestamp keyword; the outer except rolls back → 500.
              { response := .err 500 "Internal server error",
                chain_called := true, record := none, cache := pr.2 }
        | _, _ =>
          { response := .err 400 "Missing payment information",
            chain_called := false, record := none, cache := cache }

/-- Embeds the `withdraw_royalties` route handler (payment_routes.py lines
128-199).  After a successful submission the source constructs
`Transaction(seller_id=..., amount=..., transaction_hash=..., status=...,
timestamp=datetime.utcnow(), type=...)`, but `Transaction.__init__` accepts
no `timestamp` keyword: the construction raises TypeError before the commit
line can run, the outer `except` rolls back, and the handler answers 500 —
so no record is ever persisted and the commit is unreachable. -/
def withdraw_route (recover_message : String → String → Option String)
    (user : UserRec) (data : Option WithdrawRequest) (cache : GasPriceCache)
    (now : Int) (o : TxChainOracle) : RouteOutcome :=
  if user.is_author = false then
    { response := .err 403 "Only authors can withdraw royalties",
      chain_called := false, record := none, cache := cache }
  else
    match data with
    | none =>
      { response := .err 400 "Missing signature", chain_called := false,
        record := none, cache := cache }
    | some data =>
      match data.signature with
      | none =>
        { response := .err 400 "Missing signature", chain_called := false,
          record := none, cache := cache }
      | some signature =>
        if verify_signature recover_message
            (withdraw_message user.ethereum_address) signature
            user.ethereum_address = false then
          { response := .err 401 "Invalid signature", chain_called := false,
            record := none, cache := cache }
        else
          let wr := withdraw_royalties user.ethereum_address data.private_key
            cache now o
          match wr.1 with
          | .error _ =>
            { response := .err 400 "Withdrawal transaction failed",
              chain_called := true, record := none, cache := wr.2 }
          | .success tx_hash block_number gas_used =>
            -- Transaction(...) raises TypeError on the unexpected
            -- timestamp keyword; the outer except rolls back → 500.
            { response := .err 500 "Internal server error",
              chain_called := true, record := none, cache := wr.2 }

/-! ## Helper lemmas -/

/-- When the cached quote is still young (the difference of timestamps is not
above 60 s), `get_gas_price` returns the cached price, leaves the cache
untouched and performs no chain query. -/
theorem get_gas_price_young (c : GasPriceCache) (t : Int) (q : Option Nat)
    (h : ¬ t - c.timestamp > 60) :
    get_gas_price c t q = { price := c.price, cache := c, queried := false } := by
  unfold get_gas_price
  rw [if_neg h]

/-- When the cached quote is older than 60 s, `get_gas_price` queries the
chain and replaces the cache with the fresh quote, or with the default if
the query raised. -/
theorem get_gas_price_old (c : GasPriceCache) (t : Int) (q : Option Nat)
    (h : t - c.timestamp > 60) :
    get_gas_price c t q =
      match q with
      | some p =>
        { price := p, cache := { timestamp := t, price := p }, queried := true }
      | none =>
        { price := DEFAULT_GAS_PRICE,
          cache := { timestamp := t, price := DEFAULT_GAS_PRICE },
          queried := true } := by
  unfold get_gas_price
  rw [if_pos h]

/-- The price `get_gas_price` returns is always the price of the cache it
leaves behind (the source returns `self.gas_price_cache[price]`). -/
theorem get_gas_price_cache_price (c : GasPriceCache) (t : Int)
    (q : Option Nat) :
    (get_gas_price c t q).cache.price = (get_gas_price c t q).price := by
  unfold get_gas_price
  split
  · cases q <;> rfl
  · rfl

/-! ## Claims -/

/-- Claim C4 (confirmed): for every input triple, `verify_signature` returns
a boolean and never raises (it is a total function into `Bool`, including
when address recovery fails); it returns `true` exactly when the recovery of
the message+signature pair yields an address equal to the claimed one up to
letter case, and whenever recovery fails (malformed signature) it returns
`false` instead of propagating the exception. -/
theorem C4_verify_signature_spec
    (recover_message : String → String → Option String)
    (message signature address : String) :
    (verify_signature recover_message message signature address = true ↔
      ∃ recovered, recover_message message signature = some recovered ∧
        pyLower recovered = pyLower address) ∧
    (recover_message message signature = none →
      verify_signature recover_message message signature address = false) := by
  cases h : recover_message message signature with
  | none => simp [verify_signature, h]
  | some a => simp [verify_signature, h]

/-- Claim C5, counterexample: the code has no sane-bound check at all.  With
a stale cache, a chain quote of `0` wei (below any positive lower bound) is
returned as-is, and so is an absurd quote of `10^18` wei (far above 500
gwei); neither is replaced by the configured default. -/
theorem C5_counterexample :
    (get_gas_price { timestamp := 0, price := 20000000000 } 61
        (some 0)).price = 0 ∧
    (get_gas_price { timestamp := 0, price := 20000000000 } 61
        (some 1000000000000000000)).price = 1000000000000000000 := by
  constructor <;> rfl

/-- Claim C5 (amended): on a refresh, `get_gas_price` returns whatever quote
the chain reports, unmodified — there is no bounds check, and the configured
default is substituted only when the chain query itself raises. -/
theorem C5_no_bounds_check (cache : GasPriceCache) (now : Int) (q : Nat)
    (h : now - cache.timestamp > 60) :
    (get_gas_price cache now (some q)).price = q ∧
    (get_gas_price cache now none).price = DEFAULT_GAS_PRICE := by
  rw [get_gas_price_old cache now (some q) h,
      get_gas_price_old cache now none h]
  exact ⟨rfl, rfl⟩

/-- Claim C5, witness for `C5_no_bounds_check` at a concrete stale cache. -/
theorem C5_witness :
    (get_gas_price { timestamp := 0, price := 20000000000 } 100
        (some 7)).price = 7 ∧
    (get_gas_price { timestamp := 0, price := 20000000000 } 100
        none).price = DEFAULT_GAS_PRICE :=
  C5_no_bounds_check { timestamp := 0, price := 20000000000 } 100 7
    (by decide)

/-- Claim C8 (confirmed): for any two calls of `get_gas_price` where the
second occurs within the TTL window (less than 60 s after the timestamp the
first call leaves in the cache), the second call returns the identical
cached quote, does not query the chain, and leaves the cache untouched;
a second call after the TTL has elapsed queries the chain and replaces the
cached quote wholesale (both timestamp and price). -/
theorem C8_fee_cache_ttl (cache : GasPriceCache) (t1 t2 : Int)
    (q1 q2 : Option Nat) :
    (t2 - (get_gas_price cache t1 q1).cache.timestamp < 60 →
      get_gas_price (get_gas_price cache t1 q1).cache t2 q2 =
        { price := (get_gas_price cache t1 q1).price,
          cache := (get_gas_price cache t1 q1).cache,
          queried := false }) ∧
    (t2 - (get_gas_price cache t1 q1).cache.timestamp > 60 →
      (get_gas_price (get_gas_price cache t1 q1).cache t2 q2).cache =
        { timestamp := t2,
          price := match q2 with
                   | some p => p
                   | none => DEFAULT_GAS_PRICE } ∧
      (get_gas_price (get_gas_price cache t1 q1).cache t2 q2).queried
        = true) := by
  constructor
  · intro h
    rw [get_gas_price_young (get_gas_price cache t1 q1).cache t2 q2
          (by omega)]
    rw [get_gas_price_cache_price]
  · intro h
    rw [get_gas_price_old (get_gas_price cache t1 q1).cache t2 q2 h]
    cases q2 <;> exact ⟨rfl, rfl⟩

/-- Claim C9 (confirmed): the read-only queries `get_account_balance` and
`get_royalties` are total (never raise): on any chain or RPC failure they
return `0`, so at the public interface a `0` result is indistinguishable
from an error — a genuine zero balance and an unreachable endpoint produce
the same value. -/
theorem C9_reads_never_raise (address author_address : String)
    (e1 e2 : String) (v : Nat) :
    (get_account_balance address (.err e1) = 0 ∧
      get_account_balance address (.ok v) = v ∧
      get_account_balance address (.err e1) =
        get_account_balance address (.ok 0)) ∧
    (get_royalties author_address (.err e2) = 0 ∧
      get_royalties author_address (.ok v) = v ∧
      get_royalties author_address (.err e2) =
        get_royalties author_address (.ok 0)) :=
  ⟨⟨rfl, rfl, rfl⟩, ⟨rfl, rfl, rfl⟩⟩

/-- Claim C10 (confirmed): when a refresh is due and the chain query raises,
`get_gas_price` writes the configured default into the cache stamped with
the current time, so for the full TTL window after the failed refresh every
call returns the default price without querying the chain again — the
failure is cached exactly like a successful quote. -/
theorem C10_failure_cached (cache : GasPriceCache) (t1 t2 : Int)
    (q2 : Option Nat) (h1 : t1 - cache.timestamp > 60) (h2 : t2 - t1 ≤ 60) :
    get_gas_price cache t1 none =
      { price := DEFAULT_GAS_PRICE,
        cache := { timestamp := t1, price := DEFAULT_GAS_PRICE },
        queried := true } ∧
    get_gas_price { timestamp := t1, price := DEFAULT_GAS_PRICE } t2 q2 =
      { price := DEFAULT_GAS_PRICE,
        cache := { timestamp := t1, price := DEFAULT_GAS_PRICE },
        queried := false } := by
  constructor
  · rw [get_gas_price_old cache t1 none h1]
  · rw [get_gas_price_young { timestamp := t1, price := DEFAULT_GAS_PRICE }
          t2 q2 (by simp; omega)]

/-- Claim C10, witness for `C10_failure_cached`: a failed refresh at time
100, then a call at time 130 with the chain now quoting 5 wei — the default
is still returned, with no query. -/
theorem C10_witness :
    get_gas_price { timestamp := 0, price := 20000000000 } 100 none =
      { price := DEFAULT_GAS_PRICE,
        cache := { timestamp := 100, price := DEFAULT_GAS_PRICE },
        queried := true } ∧
    get_gas_price { timestamp := 100, price := DEFAULT_GAS_PRICE } 130
        (some 5) =
      { price := DEFAULT_GAS_PRICE,
        cache := { timestamp := 100, price := DEFAULT_GAS_PRICE },
        queried := false } :=
  C10_failure_cached { timestamp := 0, price := 20000000000 } 100 130
    (some 5) (by decide) (by decide)

/-- Claim C1, counterexample: a purchase whose receipt carries success flag
`false` (an on-chain revert) is reported as a success.  Every chain step
returns normally, the receipt has `status := false`, and the submitter
still returns the success dict built from the hash and the receipt fields —
refuting the claim that a submission whose receipt carries success flag
false is never reported as a success. -/
theorem C1_counterexample :
    (purchase_book "0xbuyer" 1 100 (some "0xkey")
        { timestamp := 0, price := 20000000000 } 10
        { transaction_count := .ok 7, chain_gas_price := some 20000000000,
          sign := .ok (), send_raw_transaction := .ok "0xabc",
          wait_for_receipt :=
            .ok { status := false, blockNumber := 5, gasUsed := 21000 } }).1
      = .success "0xabc" 5 21000 := by
  rfl

/-- Claim C1 (amended): each state-changing submitter (`list_book`,
`purchase_book`, `withdraw_royalties`) reports a success outcome exactly
when every chain step (nonce fetch, signing, raw submission, receipt wait)
returns without raising — the success flag of the receipt is never
inspected, so a receipt with success flag `false` is also reported as a
success; any raised exception, including the receipt-wait timeout, is
reported as an error dict carrying the exception message (there is no
TimedOut variant). -/
theorem C1_submitter_outcomes (sender_address ipfs_hash buyer_address
      author_address : String) (price royalty book_id value : Nat)
    (private_key : Option String) (cache : GasPriceCache) (now : Int)
    (o : TxChainOracle) :
    ((list_book sender_address ipfs_hash price royalty private_key cache now
        o).1.isSuccess = true ↔ o.allOk) ∧
    ((purchase_book buyer_address book_id value private_key cache now
        o).1.isSuccess = true ↔ o.allOk) ∧
    ((withdraw_royalties author_address private_key cache now
        o).1.isSuccess = true ↔ o.allOk) ∧
    (∀ e, o.wait_for_receipt = .err e →
      o.transaction_count.isOk = true → o.sign.isOk = true →
      o.send_raw_transaction.isOk = true →
      (purchase_book buyer_address book_id value private_key cache now o).1
        = .error e) := by
  obtain ⟨tc, gq, sg, sr, wr⟩ := o
  cases tc <;> cases sg <;> cases sr <;> cases wr <;>
    simp [list_book, purchase_book, withdraw_royalties, TxResult.isSuccess,
      TxChainOracle.allOk, Res.isOk]

/-- Claim C2, counterexample: resolving a persisted record twice is not a
no-op.  A record completed at time 10 and completed again at time 20 differs
from the once-completed record (its `completed_at` moved), and calling
`fail` on a record already `completed` flips its status to `failed` — the
terminal state is mutable, and neither call returns an AlreadyResolved
sentinel (both return nothing in the source). -/
theorem C2_counterexample :
    ((((Transaction.init "0xabc" 1 100 (some 2) (some 3) .purchase .pending
          none none).complete 21000 5 10).complete 21000 5 20)
      ≠ ((Transaction.init "0xabc" 1 100 (some 2) (some 3) .purchase .pending
          none none).complete 21000 5 10)) ∧
    ((((Transaction.init "0xabc" 1 100 (some 2) (some 3) .purchase .pending
          none none).complete 21000 5 10).fail 30).status = .failed) := by
  constructor
  · decide
  · rfl

/-- Claim C2 (amended): `Transaction.complete` and `Transaction.fail` are
unguarded: they overwrite status (and, for `complete`, gas/block fields) and
refresh `completed_at` regardless of the current status, returning no
sentinel.  A second `complete` behaves exactly as if the first had never
happened (it overwrites with the new arguments), `fail` moves a `completed`
record to `failed`, and `complete` moves a `failed` record back to
`completed` — terminal states are not immutable and no AlreadyResolved
value exists. -/
theorem C2_resolution_overwrites (t : Transaction)
    (g b n g2 b2 n2 m : Nat) :
    ((t.complete g b n).complete g2 b2 n2 = t.complete g2 b2 n2) ∧
    (((t.complete g b n).fail m) =
      { t with status := .failed, gas_used := some g,
               block_number := some b, completed_at := some m }) ∧
    (((t.fail n).complete g b m).status = .completed) ∧
    ((t.complete g b n).status = .completed) ∧
    ((t.fail n).status = .failed) :=
  ⟨rfl, rfl, rfl, rfl, rfl⟩

/-- Claim C6, counterexample: the startup verification never compares the
reported chain id.  A client reporting chain id 9999 — different from the
expected `GANACHE_CHAIN_ID` = 1337 — but the matching network id "5777" and
one account passes verification, refuting the claim that every check listed
(in particular the chain id equality) is performed and that any mismatch is
fatal. -/
theorem C6_counterexample :
    (9999 ≠ GANACHE_CHAIN_ID) ∧
    verify_ganache_connection
        { is_connected := true, net_version := .ok "5777", chain_id := 9999,
          accounts := .ok ["0xa"] } = .ok true := by
  constructor
  · decide
  · rfl

/-- Claim C6 (amended): the startup verification checks, in order, that the
endpoint is reachable, that the reported network id equals the expected
"5777", and that at least one account is enumerable; each failing check
raises so the orchestrator refuses to start, and in particular every
reported network id different from the expected one fails.  However the
reported chain id is never compared (the outcome is invariant under it) and
account balances are never inspected.  `Config.init_app` performs the same
reachability and network-id checks. -/
theorem C6_verify_connection_spec (p : GanacheProbe) (cid : Nat)
    (v : String) :
    ((verify_ganache_connection p).isOk = true ↔
      (p.is_connected = true ∧ p.net_version = .ok GANACHE_NETWORK_ID ∧
        ∃ accounts, p.accounts = .ok accounts ∧
          accounts.isEmpty = false)) ∧
    (verify_ganache_connection { p with chain_id := cid } =
      verify_ganache_connection p) ∧
    (p.net_version = .ok v → v ≠ GANACHE_NETWORK_ID →
      (verify_ganache_connection p).isOk = false) ∧
    ((config_init_app p).isOk = true ↔
      (p.is_connected = true ∧ p.net_version = .ok GANACHE_NETWORK_ID)) := by
  obtain ⟨c, nv, k, acc⟩ := p
  refine ⟨?_, rfl, ?_, ?_⟩
  · cases c
    · simp [verify_ganache_connection, Res.isOk]
    · cases nv with
      | err e => simp [verify_ganache_connection, Res.isOk]
      | ok s =>
        by_cases hs : s = GANACHE_NETWORK_ID
        · subst hs
          cases acc with
          | err e => simp [verify_ganache_connection, Res.isOk]
          | ok l =>
            cases l with
            | nil => simp [verify_ganache_connection, Res.isOk]
            | cons a as => simp [verify_ganache_connection, Res.isOk]
        · simp [verify_ganache_connection, Res.isOk, hs]
  · intro hnv hne
    subst hnv
    cases c
    · simp [verify_ganache_connection, Res.isOk]
    · simp [verify_ganache_connection, Res.isOk, hne]
  · cases c
    · simp [config_init_app, Res.isOk]
    · cases nv with
      | err e => simp [config_init_app, Res.isOk]
      | ok s =>
        by_cases hs : s = GANACHE_NETWORK_ID
        · subst hs
          simp [config_init_app, Res.isOk]
        · simp [config_init_app, Res.isOk, hs]

/-- Claim C3 (code bug): the persistence step of both handlers is broken,
so no handler ever commits any record at all.  After a successful on-chain
submission the source constructs `Transaction(...)` passing a `timestamp`
keyword that `Transaction.__init__` does not accept; the construction
raises TypeError, the outer except rolls back, and the handler answers 500.
Hence neither handler ever persists a Completed record — in particular the
claimed invariant is never established by them — while
`Transaction.complete`, the one operation that does produce a Completed
status, always sets a non-null `block_number` and `gas_used` (the hash
column is non-nullable throughout).  The last conjunct evaluates the
purchase handler at the failing input — a fully successful purchase with a
valid signature and a confirmed receipt — showing it answers 500 and
commits nothing. -/
theorem C3_handlers_never_persist (t : Transaction) (g b n : Nat)
    (recover_message : String → String → Option String) (book_id : Nat)
    (book : Option BookRec) (user : UserRec) (data : Option PurchaseRequest)
    (wdata : Option WithdrawRequest) (cache : GasPriceCache) (now : Int)
    (o : TxChainOracle) :
    ((purchase_route recover_message book_id book user data cache now
        o).record = none) ∧
    ((withdraw_route recover_message user wdata cache now o).record
        = none) ∧
    ((t.complete g b n).status = .completed ∧
      (t.complete g b n).block_number = some b ∧
      (t.complete g b n).gas_used = some g) ∧
    ((purchase_route (fun _ _ => some "0xbuyer") 1
        (some { price := 100, blockchain_id := 7, author_id := 2,
                is_available := true })
        { id := 3, is_author := false, ethereum_address := "0xbuyer" }
        (some { buyer_address := some "0xbuyer", signature := some "sig",
                private_key := some "key" })
        { timestamp := 0, price := 20000000000 } 10
        { transaction_count := .ok 0, chain_gas_price := some 1000,
          sign := .ok (), send_raw_transaction := .ok "0xdead",
          wait_for_receipt :=
            .ok { status := true, blockNumber := 9, gasUsed := 21000 } })
      = { response := .err 500 "Internal server error",
          chain_called := true, record := none,
          cache := { timestamp := 0, price := 20000000000 } }) := by
  refine ⟨?_, ?_, ⟨rfl, rfl, rfl⟩, by decide⟩
  · rcases book with _ | bk
    · simp [purchase_route]
    rcases bk with ⟨bprice, bcid, baid, bavail⟩
    cases bavail
    · simp [purchase_route]
    rcases data with _ | d
    · simp [purchase_route]
    rcases d with ⟨ba, sg0, pk⟩
    rcases ba with _ | buyer
    · simp [purchase_route]
    rcases sg0 with _ | sg
    · simp [purchase_route]
    cases hb : verify_signature recover_message
        (purchase_message book_id bprice) sg buyer
    · simp [purchase_route, hb]
    rcases hpr : (purchase_book buyer bcid bprice pk cache now o).1 with
        ⟨th, bn, gu⟩ | msg
    · simp [purchase_route, hb, hpr]
    · simp [purchase_route, hb, hpr]
  · rcases user with ⟨uid, uauthor, uaddr⟩
    cases uauthor
    · simp [withdraw_route]
    rcases wdata with _ | d
    · simp [withdraw_route]
    rcases d with ⟨sg0, pk⟩
    rcases sg0 with _ | sg
    · simp [withdraw_route]
    cases hb : verify_signature recover_message (withdraw_message uaddr)
        sg uaddr
    · simp [withdraw_route, hb]
    rcases hpr : (withdraw_royalties uaddr pk cache now o).1 with
        ⟨th, bn, gu⟩ | msg
    · simp [withdraw_route, hb, hpr]
    · simp [withdraw_route, hb, hpr]

/-- Claim C7 (confirmed): in the purchase and withdrawal handlers, signature
verification precedes any on-chain submission.  If either handler invoked an
on-chain submitter, then the request carried a signature that verified
against the claimed address over the route-specific message; and whenever
verification fails the handler performs no on-chain call, answering 401
Invalid signature (provided the earlier cheap guards — book availability,
author role — passed; otherwise those guards had already rejected the
request without any on-chain call either). -/
theorem C7_auth_before_chain
    (recover_message : String → String → Option String) (book_id : Nat)
    (book : Option BookRec) (user : UserRec) (data : Option PurchaseRequest)
    (wdata : Option WithdrawRequest) (cache : GasPriceCache) (now : Int)
    (o : TxChainOracle) :
    ((purchase_route recover_message book_id book user data cache now
        o).chain_called = true →
      ∃ bk d buyer_address signature, book = some bk ∧ data = some d ∧
        d.buyer_address = some buyer_address ∧
        d.signature = some signature ∧
        verify_signature recover_message (purchase_message book_id bk.price)
          signature buyer_address = true) ∧
    ((withdraw_route recover_message user wdata cache now
        o).chain_called = true →
      ∃ d signature, wdata = some d ∧ d.signature = some signature ∧
        verify_signature recover_message
          (withdraw_message user.ethereum_address) signature
          user.ethereum_address = true) ∧
    (∀ bk d buyer_address signature, book = some bk → data = some d →
      d.buyer_address = some buyer_address → d.signature = some signature →
      verify_signature recover_message (purchase_message book_id bk.price)
        signature buyer_address = false →
      (purchase_route recover_message book_id book user data cache now
        o).chain_called = false ∧
      (bk.is_available = true →
        (purchase_route recover_message book_id book user data cache now
          o).response = .err 401 "Invalid signature")) ∧
    (∀ d signature, wdata = some d → d.signature = some signature →
      verify_signature recover_message
        (withdraw_message user.ethereum_address) signature
        user.ethereum_address = false →
      (withdraw_route recover_message user wdata cache now
        o).chain_called = false ∧
      (user.is_author = true →
        (withdraw_route recover_message user wdata cache now
          o).response = .err 401 "Invalid signature")) := by
  refine ⟨?_, ?_, ?_, ?_⟩
  · intro h
    rcases book with _ | bk
    · simp [purchase_route] at h
    rcases bk with ⟨bprice, bcid, baid, bavail⟩
    cases bavail
    · simp [purchase_route] at h
    rcases data with _ | d
    · simp [purchase_route] at h
    rcases d with ⟨ba, sg0, pk⟩
    rcases ba with _ | buyer
    · simp [purchase_route] at h
    rcases sg0 with _ | sg
    · simp [purchase_route] at h
    cases hb : verify_signature recover_message
        (purchase_message book_id bprice) sg buyer
    · simp [purchase_route, hb] at h
    · exact ⟨_, _, buyer, sg, rfl, rfl, rfl, rfl, hb⟩
  · intro h
    rcases user with ⟨uid, uauthor, uaddr⟩
    cases uauthor
    · simp [withdraw_route] at h
    rcases wdata with _ | d
    · simp [withdraw_route] at h
    rcases d with ⟨sg0, pk⟩
    rcases sg0 with _ | sg
    · simp [withdraw_route] at h
    cases hb : verify_signature recover_message (withdraw_message uaddr)
        sg uaddr
    · simp [withdraw_route, hb] at h
    · exact ⟨_, sg, rfl, rfl, hb⟩
  · intro bk d buyer sg hbk hd hba hsg hv
    subst hbk
    subst hd
    rcases bk with ⟨bprice, bcid, baid, bavail⟩
    rcases d with ⟨ba, sg0, pk⟩
    simp only at hba hsg
    subst hba
    subst hsg
    cases bavail
    · exact ⟨by simp [purchase_route], by simp⟩
    · exact ⟨by simp [purchase_route, hv], by simp [purchase_route, hv]⟩
  · intro d sg hd hsg hv
    subst hd
    rcases user with ⟨uid, uauthor, uaddr⟩
    rcases d with ⟨sg0, pk⟩
    simp only at hsg hv ⊢
    subst hsg
    cases uauthor
    · exact ⟨by simp [withdraw_route], by simp⟩
    · exact ⟨by simp [withdraw_route, hv], by simp [withdraw_route, hv]⟩

end BookMarket
